import Mathlib

/-!
Verification of the vidIQ keyword-research client (`vidiq_api/vidiq_api.py`
and `vidiq_api/client.py`) against its specification.

The Python values flowing through the client are JSON-like dictionaries,
lists, strings and numbers; we embed them as the inductive type `Json`
below (numbers as `Rat`; Python float peculiarities such as NaN are out of
scope for the properties proved here).  Python dictionaries are embedded as
association lists whose lookup returns the first matching key.  Operations
that can raise a Python `TypeError`/`AttributeError`/`KeyError` are
embedded as `Except Unit` computations; the client wraps every such
exception (line 122 of `vidiq_api.py`) into a generic API error, which the
error type `VidiqError` below records as `apiError`.  String case
operations (`lower`, `upper`, `title`) are embedded at ASCII precision,
which is exact for the inputs exercised here.
-/

namespace Vidiq

/-- JSON-like Python values: `None`, booleans, numbers, strings, lists and
dictionaries (association lists, insertion order preserved). -/
inductive Json where
  | null : Json
  | bool (b : Bool) : Json
  | num (q : Rat) : Json
  | str (s : String) : Json
  | arr (items : List Json) : Json
  | obj (fields : List (String × Json)) : Json
  deriving Inhabited

mutual

/-- Structural equality test on `Json` (Python `==` on these values). -/
def Json.beq : Json → Json → Bool
  | .null, .null => true
  | .bool a, .bool b => a == b
  | .num a, .num b => a == b
  | .str a, .str b => a == b
  | .arr xs, .arr ys => Json.beqList xs ys
  | .obj xs, .obj ys => Json.beqFields xs ys
  | _, _ => false

/-- Elementwise equality of `Json` lists. -/
def Json.beqList : List Json → List Json → Bool
  | [], [] => true
  | x :: xs, y :: ys => Json.beq x y && Json.beqList xs ys
  | _, _ => false

/-- Entrywise equality of `Json` association lists. -/
def Json.beqFields : List (String × Json) → List (String × Json) → Bool
  | [], [] => true
  | (k1, v1) :: xs, (k2, v2) :: ys => k1 == k2 && Json.beq v1 v2 && Json.beqFields xs ys
  | _, _ => false

end

instance : BEq Json := ⟨Json.beq⟩

/-- First-match lookup in an association list, i.e. Python `d[k]` /
`d.get(k)` on a dict embedded with its insertion order. -/
def assocGet (kvs : List (String × Json)) (key : String) : Option Json :=
  match kvs with
  | [] => none
  | (k, v) :: rest => if k = key then some v else assocGet rest key

/-- Python truthiness test `not x` for JSON-like values: `None`, `False`,
`0`, `""`, `[]` and `\x7b\x7d` are falsy. -/
def Json.falsy : Json → Bool
  | .null => true
  | .bool b => !b
  | .num q => q == 0
  | .str s => s.isEmpty
  | .arr xs => xs.isEmpty
  | .obj kvs => kvs.isEmpty

/-- Python `key in x`: key membership for dicts, element membership for
lists, substring test for strings; `TypeError` otherwise. -/
def pyMember (key : String) : Json → Except Unit Bool
  | .obj kvs => .ok (kvs.any (fun p => p.1 = key))
  | .arr xs => .ok (xs.contains (.str key))
  | .str s => .ok (1 < (s.splitOn key).length)
  | _ => .error ()

/-- Python `x.get(key, dflt)`: defaulting lookup on dicts,
`AttributeError` on every other value. -/
def pyGetD (j : Json) (key : String) (dflt : Json) : Except Unit Json :=
  match j with
  | .obj kvs => .ok ((assocGet kvs key).getD dflt)
  | _ => .error ()

/-- Python `x[key]` with a string key: dict lookup (`KeyError` when
absent), `TypeError` on non-dicts. -/
def pySubscript (j : Json) (key : String) : Except Unit Json :=
  match j with
  | .obj kvs =>
    match assocGet kvs key with
    | some v => .ok v
    | none => .error ()
  | _ => .error ()

/-- Python `len(x)`: length of strings, lists and dicts, `TypeError`
otherwise. -/
def pyLen : Json → Except Unit Nat
  | .str s => .ok s.length
  | .arr xs => .ok xs.length
  | .obj kvs => .ok kvs.length
  | _ => .error ()

/-- Python `list(x.keys())`: the dict keys in insertion order,
`AttributeError` on non-dicts. -/
def pyKeys : Json → Except Unit (List String)
  | .obj kvs => .ok (kvs.map (fun p => p.1))
  | _ => .error ()

/-- Python `for item in x`: elements of a list, characters of a string,
keys of a dict; `TypeError` otherwise. -/
def jsonIter : Json → Except Unit (List Json)
  | .arr xs => .ok xs
  | .str s => .ok (s.data.map (fun c => .str (String.singleton c)))
  | .obj kvs => .ok (kvs.map (fun p => .str p.1))
  | _ => .error ()

mutual

/-- Python `repr` of a JSON-like value (numeric rendering approximated;
none of the proved properties inspects the rendered text). -/
def pyRepr : Json → String
  | .null => "None"
  | .bool true => "True"
  | .bool false => "False"
  | .num q => toString q
  | .str s => "'" ++ s ++ "'"
  | .arr xs => "[" ++ pyReprList xs ++ "]"
  | .obj kvs => "\x7b" ++ pyReprFields kvs ++ "\x7d"

/-- Comma-separated `repr`s of the elements of a list. -/
def pyReprList : List Json → String
  | [] => ""
  | [x] => pyRepr x
  | x :: xs => pyRepr x ++ ", " ++ pyReprList xs

/-- Comma-separated `'key': repr(value)` entries of a dict. -/
def pyReprFields : List (String × Json) → String
  | [] => ""
  | [(k, v)] => "'" ++ k ++ "': " ++ pyRepr v
  | (k, v) :: kvs => "'" ++ k ++ "': " ++ pyRepr v ++ ", " ++ pyReprFields kvs

end

/-- Python `str` of a JSON-like value: strings render as themselves,
everything else as its `repr`. -/
def pyStr : Json → String
  | .str s => s
  | j => pyRepr j

/-- Python `str.title()` (ASCII): the first alphabetic character of every
alphabetic run is uppercased, the following ones lowercased. -/
def pyTitleGo : Bool → List Char → List Char
  | _, [] => []
  | prevAlpha, c :: cs =>
    if c.isAlpha then
      (if prevAlpha then c.toLower else c.toUpper) :: pyTitleGo true cs
    else
      c :: pyTitleGo false cs

/-- Python `keyword.title()` on the embedded strings. -/
def pyTitle (s : String) : String := ⟨pyTitleGo false s.data⟩

/-- Python `keyword.lower()` (ASCII). -/
def pyLower (s : String) : String := ⟨s.data.map Char.toLower⟩

/-- Python `keyword.upper()` (ASCII). -/
def pyUpper (s : String) : String := ⟨s.data.map Char.toUpper⟩

/-- Error taxonomy of the client, following §7 of the specification.  In
`vidiq_api.py` every failure inside the `try` block is re-raised as a
generic `Exception` prefixed with "API error: " (line 123); the
constructors below record which family the underlying message belongs
to. -/
inductive VidiqError where
  | invalidArgument (msg : String) : VidiqError
  | apiError : VidiqError
  | noData (msg : String) : VidiqError
  | notFound (keyword : String) (availableKeys : List String) : VidiqError
  | exportError (msg : String) : VidiqError
  deriving Repr, DecidableEq

/-- `VidiqAPI._get_competition_level` (vidiq_api.py lines 125-136): the
five-band threshold ladder. -/
def getCompetitionLevel (value : Rat) : String :=
  if value ≤ 20 then "Very Low"
  else if value ≤ 40 then "Low"
  else if value ≤ 60 then "Medium"
  else if value ≤ 80 then "High"
  else "Very High"

/-- The `levels` list of `VidiqAPI._get_level` (client.py line 157). -/
def levelsList : List String := ["Very Low", "Low", "Medium", "High", "Very High"]

/-- The indexed loop of `VidiqAPI._get_level` (client.py lines 159-163):
return `levels[i]` at the first threshold the score does not exceed,
`levels[-1]` when every threshold is exceeded. -/
def getLevelGo (score : Rat) : Nat → List Int → String
  | _, [] => levelsList.getLastD ""
  | i, t :: ts => if score ≤ (t : Rat) then levelsList.getD i "" else getLevelGo score (i + 1) ts

/-- `VidiqAPI._get_level` (client.py lines 146-163). -/
def getLevel (score : Rat) (thresholds : List Int) : String :=
  getLevelGo score 0 thresholds

/-- Severity rank of a level band, for stating monotonicity. -/
def levelRank : String → Nat
  | "Very Low" => 0
  | "Low" => 1
  | "Medium" => 2
  | "High" => 3
  | "Very High" => 4
  | _ => 5

/-- `_get_competition_level` applied to a raw JSON field value: Python
compares numbers (and booleans, which are numbers) against the integer
thresholds and raises a `TypeError` on any other operand. -/
def classifyJson : Json → Except Unit String
  | .num q => .ok (getCompetitionLevel q)
  | .bool b => .ok (getCompetitionLevel (if b then 1 else 0))
  | _ => .error ()

/-- The case-variation trial list of `analyze_keyword` (vidiq_api.py line
88): exact input, lowercase, uppercase, title case, in that order. -/
def variations (keyword : String) : List String :=
  [keyword, pyLower keyword, pyUpper keyword, pyTitle keyword]

/-- The lookup loop of `analyze_keyword` (vidiq_api.py lines 90-93): for
each variation test `variation in compvol` and on the first hit evaluate
`compvol[variation]` and break. -/
def findVariantM (compvol : Json) : List String → Except Unit (Option Json)
  | [] => .ok none
  | v :: vs =>
    match pyMember v compvol with
    | .error _ => .error ()
    | .ok true =>
      match pySubscript compvol v with
      | .error _ => .error ()
      | .ok kd => .ok (some kd)
    | .ok false => findVariantM compvol vs

/-- The formatted analysis record assembled by `analyze_keyword`
(vidiq_api.py lines 100-114). -/
structure AnalysisOutput where
  keyword : String
  timestamp : String
  volume : Json
  competition : Json
  estimated_monthly_search : Json
  overall : Json
  volume_level : String
  competition_level : String
  overall_level : String
  deriving Inhabited

/-- Level computation for one metric field (vidiq_api.py lines 110-112):
`self._get_competition_level(keyword_data.get(field, 0))`. -/
def classifyField (kvs : List (String × Json)) (field : String) : Except Unit String :=
  classifyJson ((assocGet kvs field).getD (.num 0))

/-- The result-assembly step of `analyze_keyword` (vidiq_api.py lines
100-114): the `data` section defaults missing fields to the string "N/A"
(lines 104-107) while the `levels` section classifies the default 0
(lines 110-112).  A non-dict `keyword_data` or a non-numeric field value
raises and is wrapped into the generic API error. -/
def formatAnalysis (kw ts : String) (kd : Json) : Except Unit AnalysisOutput :=
  match kd with
  | .obj kvs =>
    match classifyField kvs "volume", classifyField kvs "competition",
          classifyField kvs "overall" with
    | .ok vl, .ok cl, .ok ol =>
      .ok { keyword := kw, timestamp := ts,
            volume := (assocGet kvs "volume").getD (.str "N/A"),
            competition := (assocGet kvs "competition").getD (.str "N/A"),
            estimated_monthly_search := (assocGet kvs "estimated_monthly_search").getD (.str "N/A"),
            overall := (assocGet kvs "overall").getD (.str "N/A"),
            volume_level := vl, competition_level := cl, overall_level := ol }
    | _, _, _ => .error ()
  | _ => .error ()

/-- Response processing of `analyze_keyword` (vidiq_api.py lines 79-116),
after the HTTP layer has produced the decoded JSON body `data`; `ts` is
the wall-clock string the method reads.  Falsy bodies and bodies without
a `search_stats` member raise the no-data error (lines 79-80); a missing
match after the variation loop raises the not-found error carrying
`list(compvol.keys())` (lines 95-97); Python type errors anywhere are
wrapped into the generic API error (lines 122-123). -/
def analyzeKeywordResp (keyword ts : String) (data : Json) : Except VidiqError AnalysisOutput :=
  if data.falsy then .error (.noData ("No data returned for keyword: " ++ keyword))
  else
    match pyMember "search_stats" data with
    | .error _ => .error .apiError
    | .ok false => .error (.noData ("No data returned for keyword: " ++ keyword))
    | .ok true =>
      match pyGetD data "search_stats" (.obj []) with
      | .error _ => .error .apiError
      | .ok search_stats =>
        match pyGetD search_stats "compvol" (.obj []) with
        | .error _ => .error .apiError
        | .ok compvol =>
          match findVariantM compvol (variations keyword) with
          | .error _ => .error .apiError
          | .ok kd? =>
            match kd? with
            | some kd =>
              if kd.falsy then
                match pyKeys compvol with
                | .ok ks => .error (.notFound keyword ks)
                | .error _ => .error .apiError
              else
                match formatAnalysis keyword ts kd with
                | .ok r => .ok r
                | .error _ => .error .apiError
            | none =>
              match pyKeys compvol with
              | .ok ks => .error (.notFound keyword ks)
              | .error _ => .error .apiError

/-- First value hit when trying a list of keys against an association
list in order (specification-side description of the variation loop). -/
def firstHit (kvs : List (String × Json)) : List String → Option Json
  | [] => none
  | v :: vs =>
    match assocGet kvs v with
    | some m => some m
    | none => firstHit kvs vs

/-- The uniform envelope of the auxiliary query methods (vidiq_api.py
lines 199-205 and 320-326): keyword, timestamp, type tag, raw data and
count. -/
structure AuxResult where
  keyword : String
  timestamp : String
  type : String
  data : Json
  count : Nat
  deriving Inhabited

/-- The count expression of `get_matching_keywords` / `get_questions`
(vidiq_api.py lines 204 and 325):
`len(data.get(field, [])) if field in data else 0`. -/
def countField (field : String) (data : Json) : Except Unit Nat :=
  match pyMember field data with
  | .error _ => .error ()
  | .ok false => .ok 0
  | .ok true =>
    match pyGetD data field (.arr []) with
    | .error _ => .error ()
    | .ok v => pyLen v

/-- Response processing of `get_matching_keywords` (vidiq_api.py lines
193-207): a falsy body raises the no-data error, otherwise the envelope
holds the raw body with the count of its `permutations` field. -/
def getMatchingKeywords (keyword ts : String) (data : Json) : Except VidiqError AuxResult :=
  if data.falsy then .error (.noData ("No matching keywords found for: " ++ keyword))
  else
    match countField "permutations" data with
    | .error _ => .error .apiError
    | .ok n => .ok ⟨keyword, ts, "matching_keywords", data, n⟩

/-- Response processing of `get_questions` (vidiq_api.py lines 314-328):
a falsy body raises the no-data error, otherwise the envelope holds the
raw body with the count of its `questions` field. -/
def getQuestions (keyword ts : String) (data : Json) : Except VidiqError AuxResult :=
  if data.falsy then .error (.noData ("No questions found for: " ++ keyword))
  else
    match countField "questions" data with
    | .error _ => .error .apiError
    | .ok n => .ok ⟨keyword, ts, "questions", data, n⟩

/-- The envelope of `get_related_keywords` (vidiq_api.py lines 264-271),
which additionally keeps the full raw response. -/
structure RelatedResult where
  keyword : String
  timestamp : String
  type : String
  data : Json
  count : Nat
  raw_response : Json
  deriving Inhabited

/-- The extraction chain of `get_related_keywords` (vidiq_api.py lines
255-261): a direct `keywords` field, else `related_keywords`, else the
nested `search_stats.related` path, else the empty list. -/
def extractRelated (data : Json) : Except Unit Json :=
  match pyMember "keywords" data with
  | .error _ => .error ()
  | .ok true => pySubscript data "keywords"
  | .ok false =>
    match pyMember "related_keywords" data with
    | .error _ => .error ()
    | .ok true => pySubscript data "related_keywords"
    | .ok false =>
      match pyMember "search_stats" data with
      | .error _ => .error ()
      | .ok false => .ok (.arr [])
      | .ok true =>
        match pySubscript data "search_stats" with
        | .error _ => .error ()
        | .ok ss =>
          match pyMember "related" ss with
          | .error _ => .error ()
          | .ok true => pySubscript ss "related"
          | .ok false => .ok (.arr [])

/-- Response processing of `get_related_keywords` (vidiq_api.py lines
249-273): falsy bodies raise the no-data error; otherwise the envelope
holds the extracted list, its length as count, and the raw response. -/
def getRelatedKeywords (keyword ts : String) (data : Json) : Except VidiqError RelatedResult :=
  if data.falsy then .error (.noData ("No related keywords found for: " ++ keyword))
  else
    match extractRelated data with
    | .error _ => .error .apiError
    | .ok rel =>
      match pyLen rel with
      | .error _ => .error .apiError
      | .ok n => .ok ⟨keyword, ts, "related_keywords", rel, n, data⟩

/-- First-match lookup in a generic association list (Python dict access
on the batch result). -/
def lookupResult {β : Type} (d : List (String × β)) (k : String) : Option β :=
  match d with
  | [] => none
  | (k1, v) :: rest => if k1 = k then some v else lookupResult rest k

/-- Python `results[keyword] = value` on a dict embedded as an
association list: overwrite in place when the key exists (keeping its
position), append otherwise. -/
def dictInsert {β : Type} (d : List (String × β)) (k : String) (v : β) : List (String × β) :=
  if d.any (fun p => p.1 = k) then
    d.map (fun p => if p.1 = k then (k, v) else p)
  else
    d ++ [(k, v)]

/-- The loop of `analyze_multiple_keywords` (vidiq_api.py lines 151-157):
for each keyword store the analysis result, or on any failure the error
descriptor carrying the failure message, and continue.  The per-keyword
analysis outcome is abstracted as `analyze`. -/
def analyzeMultipleGo {α : Type} (analyze : String → Except String α)
    (acc : List (String × Except String α)) : List String → List (String × Except String α)
  | [] => acc
  | kw :: rest => analyzeMultipleGo analyze (dictInsert acc kw (analyze kw)) rest

/-- `analyze_multiple_keywords` (vidiq_api.py lines 138-159): the batch
result dict, starting empty. -/
def analyzeMultiple {α : Type} (analyze : String → Except String α)
    (keywords : List String) : List (String × Except String α) :=
  analyzeMultipleGo analyze [] keywords

/-- One CSV row record (vidiq_api.py lines 409-417): the keyword and the
three metric slots may carry any JSON value (Python strings are only
produced when the writer renders them). -/
structure CsvRow where
  keyword : Json
  type : String
  score : Json
  volume : Json
  competition : Json
  source_keyword : String
  timestamp : String
  deriving Inhabited

/-- Row assembly for one extracted item (vidiq_api.py lines 397-417, and
the identical blocks at 423-443 and 449-469): dict items contribute their
`keyword`/`score`/`volume`/`competition` fields with "N/A" defaults,
non-dict items contribute `str(item)` as keyword with "N/A" elsewhere. -/
def itemToRow (typ source ts : String) (item : Json) : CsvRow :=
  match item with
  | .obj kvs =>
    { keyword := (assocGet kvs "keyword").getD (.str (pyStr (.obj kvs))),
      type := typ,
      score := (assocGet kvs "score").getD (.str "N/A"),
      volume := (assocGet kvs "volume").getD (.str "N/A"),
      competition := (assocGet kvs "competition").getD (.str "N/A"),
      source_keyword := source,
      timestamp := ts }
  | item =>
    { keyword := .str (pyStr item), type := typ, score := .str "N/A", volume := .str "N/A",
      competition := .str "N/A", source_keyword := source, timestamp := ts }

/-- `_add_related_to_csv` (vidiq_api.py lines 393-417): one row per item
of the related result's data list. -/
def addRelatedRows (rel : RelatedResult) : Except Unit (List CsvRow) :=
  match jsonIter rel.data with
  | .error _ => .error ()
  | .ok items => .ok (items.map (itemToRow "related" rel.keyword rel.timestamp))

/-- `_add_matching_to_csv` (vidiq_api.py lines 419-443): the items of
`matching_data['data'].get('permutations', [])`, one row each. -/
def addMatchingRows (mat : AuxResult) : Except Unit (List CsvRow) :=
  match pyGetD mat.data "permutations" (.arr []) with
  | .error _ => .error ()
  | .ok perms =>
    match jsonIter perms with
    | .error _ => .error ()
    | .ok items => .ok (items.map (itemToRow "matching" mat.keyword mat.timestamp))

/-- `_add_questions_to_csv` (vidiq_api.py lines 445-469): the items of
`questions_data['data'].get('questions', [])`, one row each. -/
def addQuestionRows (q : AuxResult) : Except Unit (List CsvRow) :=
  match pyGetD q.data "questions" (.arr []) with
  | .error _ => .error ()
  | .ok qs =>
    match jsonIter qs with
    | .error _ => .error ()
    | .ok items => .ok (items.map (itemToRow "question" q.keyword q.timestamp))

/-- The fixed CSV header (vidiq_api.py line 477). -/
def csvHeaders : List String :=
  ["keyword", "type", "score", "volume", "competition", "source_keyword", "timestamp"]

/-- One written CSV record: `csv.DictWriter.writerow` renders each value
with `str`, in header order (quoting of separators is below the
abstraction level of the written-records model). -/
def rowCells (r : CsvRow) : List String :=
  [pyStr r.keyword, r.type, pyStr r.score, pyStr r.volume, pyStr r.competition,
   r.source_keyword, r.timestamp]

/-- `_write_csv_file` (vidiq_api.py lines 471-491), the written file
modelled as its list of records: an empty row set raises the export
error, otherwise the file is the header row followed by one record per
row. -/
def writeCsvFile (rows : List CsvRow) : Except VidiqError (List (List String)) :=
  if rows.isEmpty then .error (.exportError "No data to export")
  else .ok (csvHeaders :: rows.map rowCells)

/-- The row-assembly and write phase of `export_to_csv` (vidiq_api.py
lines 370-391), after the three auxiliary queries returned `rel`, `mat`
and `q`: related rows, then matching rows, then question rows, written as
one file; any Python error while iterating is wrapped into the export
failure (line 391). -/
def exportCombined (rel : RelatedResult) (mat q : AuxResult) :
    Except VidiqError (List (List String)) :=
  match addRelatedRows rel with
  | .error _ => .error (.exportError "Failed to export CSV")
  | .ok r1 =>
    match addMatchingRows mat with
    | .error _ => .error (.exportError "Failed to export CSV")
    | .ok r2 =>
      match addQuestionRows q with
      | .error _ => .error (.exportError "Failed to export CSV")
      | .ok r3 => writeCsvFile (r1 ++ r2 ++ r3)

/-- The constructor of `vidiq_api.py`'s `VidiqAPI` (lines 25-41, the
class the package `__init__.py` exports): the token is stored and used
for the session headers without any validation; construction never
fails. -/
def vidiqInit (auth_token : String) : Except VidiqError String :=
  .ok auth_token

/-- Python `a or b` on an optional token string: a falsy (absent or
empty) left operand falls through to the right operand. -/
def orTruthy (a b : Option String) : Option String :=
  match a with
  | some s => if s.isEmpty then b else some s
  | none => b

/-- The constructor of `client.py`'s `VidiqAPI` (lines 21-43):
`auth_token or os.getenv('VIDIQ_TOKEN')`, failing fast with `ValueError`
when the combined token is absent or empty. -/
def clientInit (auth_token : Option String) (envToken : Option String) :
    Except VidiqError String :=
  match orTruthy auth_token envToken with
  | none => .error (.invalidArgument "No auth token provided.")
  | some t =>
    if t.isEmpty then .error (.invalidArgument "No auth token provided.")
    else .ok t

theorem any_key_eq_isSome_assocGet (kvs : List (String × Json)) (key : String) :
    (kvs.any (fun p => p.1 = key)) = (assocGet kvs key).isSome := by
  induction kvs with
  | nil => rfl
  | cons p rest ih =>
    obtain ⟨k, v⟩ := p
    by_cases h : k = key
    · simp [assocGet, h]
    · simp [assocGet, h, ih]

theorem findVariantM_obj (kvs : List (String × Json)) (vs : List String) :
    findVariantM (.obj kvs) vs = .ok (firstHit kvs vs) := by
  induction vs with
  | nil => rfl
  | cons v rest ih =>
    simp only [findVariantM, pyMember, any_key_eq_isSome_assocGet, firstHit]
    cases hv : assocGet kvs v with
    | some m => simp [hv, pySubscript]
    | none => simp [hv, ih]

theorem firstHit_of_first (kvs : List (String × Json)) (vs : List String) (i : Nat)
    (hi : i < vs.length) (m : Json)
    (hprev : ∀ j (hj : j < vs.length), j < i → assocGet kvs (vs.get ⟨j, hj⟩) = none)
    (hhit : assocGet kvs (vs.get ⟨i, hi⟩) = some m) :
    firstHit kvs vs = some m := by
  induction vs generalizing i with
  | nil => simp at hi
  | cons v rest ih =>
    cases i with
    | zero =>
      simp only [List.get] at hhit
      simp [firstHit, hhit]
    | succ n =>
      have hv : assocGet kvs v = none := hprev 0 (by simp) (Nat.succ_pos n)
      have hi' : n < rest.length := by simpa using hi
      simp only [firstHit, hv]
      exact ih n hi' (fun j hj hji => hprev (j + 1) (by simpa using hj) (by omega)) hhit

theorem firstHit_of_none (kvs : List (String × Json)) (vs : List String)
    (h : ∀ v ∈ vs, assocGet kvs v = none) :
    firstHit kvs vs = none := by
  induction vs with
  | nil => rfl
  | cons v rest ih =>
    simp only [firstHit, h v (by simp)]
    exact ih (fun x hx => h x (by simp [hx]))

theorem assocGet_ne_nil (kvs : List (String × Json)) (key : String) (v : Json)
    (h : assocGet kvs key = some v) : kvs.isEmpty = false := by
  cases kvs with
  | nil => simp [assocGet] at h
  | cons p rest => rfl

/-- Reduction of `analyzeKeywordResp` on a well-shaped body: a dict with
a `search_stats` dict member whose `compvol` member is a dict. -/
theorem analyzeKeywordResp_reduce (kw ts : String) (dkvs skvs kvs : List (String × Json))
    (hss : assocGet dkvs "search_stats" = some (.obj skvs))
    (hcv : assocGet skvs "compvol" = some (.obj kvs)) :
    analyzeKeywordResp kw ts (.obj dkvs) =
      match firstHit kvs (variations kw) with
      | none => .error (.notFound kw (kvs.map Prod.fst))
      | some kd =>
        if kd.falsy then .error (.notFound kw (kvs.map Prod.fst))
        else
          match formatAnalysis kw ts kd with
          | .ok r => .ok r
          | .error _ => .error .apiError := by
  have hne : dkvs.isEmpty = false := assocGet_ne_nil dkvs _ _ hss
  simp only [analyzeKeywordResp, Json.falsy, hne, Bool.false_eq_true, if_false, pyMember,
    any_key_eq_isSome_assocGet, hss, Option.isSome_some, pyGetD, Option.getD_some,
    hcv, findVariantM_obj, pyKeys]
  cases h : firstHit kvs (variations kw) with
  | none => simp
  | some kd =>
    by_cases hf : kd.falsy <;> simp [hf]

/-- Reduction of `analyzeKeywordResp` when `compvol` is absent from the
`search_stats` dict: the lookup runs against the empty default dict. -/
theorem analyzeKeywordResp_reduce_noCompvol (kw ts : String) (dkvs skvs : List (String × Json))
    (hss : assocGet dkvs "search_stats" = some (.obj skvs))
    (hcv : assocGet skvs "compvol" = none) :
    analyzeKeywordResp kw ts (.obj dkvs) = .error (.notFound kw []) := by
  have hne : dkvs.isEmpty = false := assocGet_ne_nil dkvs _ _ hss
  have hfh : firstHit [] (variations kw) = none := firstHit_of_none _ _ (by intro v hv; rfl)
  simp only [analyzeKeywordResp, Json.falsy, hne, Bool.false_eq_true, if_false, pyMember,
    any_key_eq_isSome_assocGet, hss, Option.isSome_some, pyGetD, Option.getD_some,
    hcv, Option.getD_none, findVariantM_obj, hfh, pyKeys, List.map_nil]

/-- Claim C1: per-keyword lookup in `analyze_keyword` tries the exact
input, then lowercase, uppercase and title case, in that order, and the
first variant present in the map is the one used (part 1); when no
variant is present, the call fails with the not-found error carrying the
list of available keys (part 2); when the per-keyword map `compvol` is
absent entirely, the same error carries the empty key list (part 3). -/
theorem C1_case_variant_lookup (kw ts : String) (dkvs skvs kvs : List (String × Json))
    (hss : assocGet dkvs "search_stats" = some (.obj skvs)) :
    (∀ (_ : assocGet skvs "compvol" = some (.obj kvs))
       (i : Nat) (hi : i < [kw, pyLower kw, pyUpper kw, pyTitle kw].length)
       (m : Json) (r : AnalysisOutput),
       (∀ j (hj : j < [kw, pyLower kw, pyUpper kw, pyTitle kw].length), j < i →
          assocGet kvs ([kw, pyLower kw, pyUpper kw, pyTitle kw].get ⟨j, hj⟩) = none) →
       assocGet kvs ([kw, pyLower kw, pyUpper kw, pyTitle kw].get ⟨i, hi⟩) = some m →
       m.falsy = false →
       formatAnalysis kw ts m = .ok r →
       analyzeKeywordResp kw ts (.obj dkvs) = .ok r) ∧
    ((assocGet skvs "compvol" = some (.obj kvs)) →
       (∀ v ∈ [kw, pyLower kw, pyUpper kw, pyTitle kw], assocGet kvs v = none) →
       analyzeKeywordResp kw ts (.obj dkvs) = .error (.notFound kw (kvs.map Prod.fst))) ∧
    (assocGet skvs "compvol" = none →
       analyzeKeywordResp kw ts (.obj dkvs) = .error (.notFound kw [])) := by
  refine ⟨?_, ?_, ?_⟩
  · intro hcv i hi m r hprev hhit hfalsy hfmt
    have hfh : firstHit kvs (variations kw) = some m :=
      firstHit_of_first kvs (variations kw) i hi m hprev hhit
    rw [analyzeKeywordResp_reduce kw ts dkvs skvs kvs hss hcv, hfh]
    simp [hfalsy, hfmt]
  · intro hcv hnone
    have hfh : firstHit kvs (variations kw) = none := firstHit_of_none kvs (variations kw) hnone
    rw [analyzeKeywordResp_reduce kw ts dkvs skvs kvs hss hcv, hfh]
  · intro hcv
    exact analyzeKeywordResp_reduce_noCompvol kw ts dkvs skvs hss hcv

/-- Concrete instance of Claim C1: the body holds "test keyword" only, so
analyzing "Test Keyword" matches the lowercase variant (index 1) and
succeeds; and against an empty per-keyword map the analysis of "vpn"
fails with the not-found error carrying the empty key list. -/
theorem C1_case_variant_lookup_witness :
    analyzeKeywordResp "Test Keyword" "t0"
        (.obj [("search_stats", .obj [("compvol",
          .obj [("test keyword", .obj [("volume", .num 50)])])])]) =
      .ok { keyword := "Test Keyword", timestamp := "t0",
            volume := .num 50, competition := .str "N/A",
            estimated_monthly_search := .str "N/A", overall := .str "N/A",
            volume_level := "Medium", competition_level := "Very Low",
            overall_level := "Very Low" } ∧
    analyzeKeywordResp "vpn" "t0"
        (.obj [("search_stats", .obj [("compvol", .obj [])])]) =
      .error (.notFound "vpn" []) := by
  constructor
  · exact (C1_case_variant_lookup "Test Keyword" "t0"
      [("search_stats", .obj [("compvol", .obj [("test keyword", .obj [("volume", .num 50)])])])]
      [("compvol", .obj [("test keyword", .obj [("volume", .num 50)])])]
      [("test keyword", .obj [("volume", .num 50)])] rfl).1 rfl 1 (by decide)
      (.obj [("volume", .num 50)]) _
      (by
        intro j hj hji
        interval_cases j
        rfl)
      rfl rfl rfl
  · exact (C1_case_variant_lookup "vpn" "t0"
      [("search_stats", .obj [("compvol", .obj [])])] [("compvol", .obj [])] [] rfl).2.1 rfl
      (by intro v hv; rfl)

/-- Claim C9: in `analyze_keyword`, a metric field absent from the
matched metrics object is reported inconsistently inside one result: the
`data` section defaults it to the string "N/A" while the corresponding
level classifies the default 0 and is therefore "Very Low". -/
theorem C9_missing_metric_inconsistency (kw ts : String) (kvs : List (String × Json))
    (r : AnalysisOutput) (hfmt : formatAnalysis kw ts (.obj kvs) = .ok r) :
    (assocGet kvs "volume" = none →
       r.volume = .str "N/A" ∧ r.volume_level = getCompetitionLevel 0 ∧
       r.volume_level = "Very Low") ∧
    (assocGet kvs "competition" = none →
       r.competition = .str "N/A" ∧ r.competition_level = getCompetitionLevel 0 ∧
       r.competition_level = "Very Low") ∧
    (assocGet kvs "overall" = none →
       r.overall = .str "N/A" ∧ r.overall_level = getCompetitionLevel 0 ∧
       r.overall_level = "Very Low") := by
  simp only [formatAnalysis] at hfmt
  cases hv : classifyField kvs "volume" with
  | error e => rw [hv] at hfmt; cases hfmt
  | ok vl =>
  cases hc : classifyField kvs "competition" with
  | error e => rw [hv, hc] at hfmt; cases hfmt
  | ok cl =>
  cases ho : classifyField kvs "overall" with
  | error e => rw [hv, hc, ho] at hfmt; cases hfmt
  | ok ol =>
  rw [hv, hc, ho] at hfmt
  injection hfmt with hr
  subst hr
  have hvl0 : getCompetitionLevel 0 = "Very Low" := by norm_num [getCompetitionLevel]
  refine ⟨?_, ?_, ?_⟩
  · intro habs
    have : vl = getCompetitionLevel 0 := by
      simp [classifyField, habs, classifyJson] at hv
      exact hv.symm
    simp [habs, this, hvl0]
  · intro habs
    have : cl = getCompetitionLevel 0 := by
      simp [classifyField, habs, classifyJson] at hc
      exact hc.symm
    simp [habs, this, hvl0]
  · intro habs
    have : ol = getCompetitionLevel 0 := by
      simp [classifyField, habs, classifyJson] at ho
      exact ho.symm
    simp [habs, this, hvl0]

/-- Concrete instance of Claim C9: a metrics object carrying only
`competition = 50` yields volume "N/A" with volume level "Very Low". -/
theorem C9_missing_metric_inconsistency_witness :
    (Json.str "N/A" = .str "N/A" ∧ "Very Low" = getCompetitionLevel 0 ∧
       ("Very Low" : String) = "Very Low") ∧
    formatAnalysis "vpn" "t0" (.obj [("competition", .num 50)]) =
      .ok { keyword := "vpn", timestamp := "t0",
            volume := .str "N/A", competition := .num 50,
            estimated_monthly_search := .str "N/A", overall := .str "N/A",
            volume_level := "Very Low", competition_level := "Medium",
            overall_level := "Very Low" } := by
  constructor
  · exact (C9_missing_metric_inconsistency "vpn" "t0" [("competition", .num 50)] _ rfl).1 rfl
  · rfl

/-- Claim C10: a case-variant key present in the per-keyword map whose
metrics value is falsy (e.g. an empty object) is treated exactly like an
absent key: the variation loop's hit is discarded by the truthiness check
and the call fails with the not-found error carrying the available
keys. -/
theorem C10_falsy_metrics_not_found (kw ts : String)
    (dkvs skvs kvs : List (String × Json)) (m : Json)
    (hss : assocGet dkvs "search_stats" = some (.obj skvs))
    (hcv : assocGet skvs "compvol" = some (.obj kvs))
    (hfind : firstHit kvs (variations kw) = some m)
    (hfalsy : m.falsy = true) :
    analyzeKeywordResp kw ts (.obj dkvs) = .error (.notFound kw (kvs.map Prod.fst)) := by
  rw [analyzeKeywordResp_reduce kw ts dkvs skvs kvs hss hcv, hfind]
  simp [hfalsy]

/-- Concrete instance of Claim C10: the key "vpn" is present but mapped
to the empty object, and analyzing "vpn" still fails with the not-found
error listing the available key "vpn". -/
theorem C10_falsy_metrics_not_found_witness :
    analyzeKeywordResp "vpn" "t0"
        (.obj [("search_stats", .obj [("compvol", .obj [("vpn", .obj [])])])]) =
      .error (.notFound "vpn" ["vpn"]) :=
  C10_falsy_metrics_not_found "vpn" "t0"
    [("search_stats", .obj [("compvol", .obj [("vpn", .obj [])])])]
    [("compvol", .obj [("vpn", .obj [])])] [("vpn", .obj [])] (.obj []) rfl rfl rfl rfl

theorem rank_getCompetitionLevel (s : Rat) :
    levelRank (getCompetitionLevel s) =
      if s ≤ 20 then 0 else if s ≤ 40 then 1 else if s ≤ 60 then 2 else if s ≤ 80 then 3 else 4 := by
  unfold getCompetitionLevel
  split_ifs <;> rfl

/-- Claim C2: the level classifier returns "Very Low" for scores ≤ 20,
"Low" on (20, 40], "Medium" on (40, 60], "High" on (60, 80] and
"Very High" above 80; `client.py`'s threshold-list variant agrees with it
at the thresholds `[20, 40, 60, 80]` it is always called with; and the
eight boundary evaluations listed in the claim hold. -/
theorem C2_level_classifier_thresholds (s : Rat) :
    (s ≤ 20 → getCompetitionLevel s = "Very Low") ∧
    (20 < s → s ≤ 40 → getCompetitionLevel s = "Low") ∧
    (40 < s → s ≤ 60 → getCompetitionLevel s = "Medium") ∧
    (60 < s → s ≤ 80 → getCompetitionLevel s = "High") ∧
    (80 < s → getCompetitionLevel s = "Very High") ∧
    getLevel s [20, 40, 60, 80] = getCompetitionLevel s ∧
    (getCompetitionLevel 20 = "Very Low" ∧ getCompetitionLevel 21 = "Low" ∧
     getCompetitionLevel 40 = "Low" ∧ getCompetitionLevel 41 = "Medium" ∧
     getCompetitionLevel 60 = "Medium" ∧ getCompetitionLevel 61 = "High" ∧
     getCompetitionLevel 80 = "High" ∧ getCompetitionLevel 81 = "Very High") := by
  refine ⟨?_, ?_, ?_, ?_, ?_, ?_, ?_⟩
  · intro h; simp [getCompetitionLevel, h]
  · intro h1 h2
    simp only [getCompetitionLevel]
    rw [if_neg (by linarith), if_pos h2]
  · intro h1 h2
    simp only [getCompetitionLevel]
    rw [if_neg (by linarith), if_neg (by linarith), if_pos h2]
  · intro h1 h2
    simp only [getCompetitionLevel]
    rw [if_neg (by linarith), if_neg (by linarith), if_neg (by linarith), if_pos h2]
  · intro h1
    simp only [getCompetitionLevel]
    rw [if_neg (by linarith), if_neg (by linarith), if_neg (by linarith), if_neg (by linarith)]
  · simp only [getLevel, getLevelGo, getCompetitionLevel, levelsList]
    norm_num
  · refine ⟨?_, ?_, ?_, ?_, ?_, ?_, ?_, ?_⟩ <;> norm_num [getCompetitionLevel]

/-- Concrete instance of Claim C2 at the boundary scores 21 and 81. -/
theorem C2_level_classifier_thresholds_witness :
    getCompetitionLevel 21 = "Low" ∧ getCompetitionLevel 81 = "Very High" :=
  ⟨(C2_level_classifier_thresholds 21).2.1 (by norm_num) (by norm_num),
   (C2_level_classifier_thresholds 81).2.2.2.2.1 (by norm_num)⟩

/-- Claim C8: the classifier is monotone non-decreasing in severity, and
scores below the lowest threshold classify as "Very Low" while scores
above the highest classify as "Very High".  (Totality and determinism are
structural: `getCompetitionLevel` is a total function.) -/
theorem C8_classifier_monotone (s1 s2 : Rat) (h : s1 ≤ s2) :
    levelRank (getCompetitionLevel s1) ≤ levelRank (getCompetitionLevel s2) ∧
    (s1 < 20 → getCompetitionLevel s1 = "Very Low") ∧
    (80 < s2 → getCompetitionLevel s2 = "Very High") := by
  refine ⟨?_, ?_, ?_⟩
  · rw [rank_getCompetitionLevel, rank_getCompetitionLevel]
    split_ifs <;> first | omega | (exfalso; linarith)
  · intro hlt; simp [getCompetitionLevel, le_of_lt hlt]
  · intro hgt
    simp only [getCompetitionLevel]
    rw [if_neg (by linarith), if_neg (by linarith), if_neg (by linarith), if_neg (by linarith)]

/-- Concrete instance of Claim C8 at the score pair (15, 95). -/
theorem C8_classifier_monotone_witness :
    levelRank (getCompetitionLevel 15) ≤ levelRank (getCompetitionLevel 95) ∧
    getCompetitionLevel 15 = "Very Low" ∧ getCompetitionLevel 95 = "Very High" := by
  have h := C8_classifier_monotone 15 95 (by norm_num)
  exact ⟨h.1, h.2.1 (by norm_num), h.2.2 (by norm_num)⟩

theorem isEmpty_false_of_ne_nil {β : Type} (l : List β) (h : l ≠ []) : l.isEmpty = false := by
  cases l with
  | nil => exact absurd rfl h
  | cons a t => rfl

/-- Claim C3: for matching keywords and questions, a falsy decoded body
fails with the no-data error, while a non-empty JSON object merely
lacking the named list field (`permutations` / `questions`) succeeds with
count 0 and the raw object as data. -/
theorem C3_empty_vs_missing_field (kw ts : String) (data : Json) :
    (data.falsy = true →
       getMatchingKeywords kw ts data =
         .error (.noData ("No matching keywords found for: " ++ kw)) ∧
       getQuestions kw ts data = .error (.noData ("No questions found for: " ++ kw))) ∧
    (∀ kvs, data = .obj kvs → kvs ≠ [] → assocGet kvs "permutations" = none →
       getMatchingKeywords kw ts data = .ok ⟨kw, ts, "matching_keywords", data, 0⟩) ∧
    (∀ kvs, data = .obj kvs → kvs ≠ [] → assocGet kvs "questions" = none →
       getQuestions kw ts data = .ok ⟨kw, ts, "questions", data, 0⟩) := by
  refine ⟨?_, ?_, ?_⟩
  · intro hf
    constructor <;> simp [getMatchingKeywords, getQuestions, hf]
  · rintro kvs rfl hne habs
    have he : kvs.isEmpty = false := isEmpty_false_of_ne_nil kvs hne
    simp [getMatchingKeywords, Json.falsy, he, countField, pyMember,
      any_key_eq_isSome_assocGet, habs]
  · rintro kvs rfl hne habs
    have he : kvs.isEmpty = false := isEmpty_false_of_ne_nil kvs hne
    simp [getQuestions, Json.falsy, he, countField, pyMember,
      any_key_eq_isSome_assocGet, habs]

/-- Concrete instance of Claim C3: the null body fails with the no-data
error; the object body holding only an unrelated field succeeds with
count 0 and the object unchanged. -/
theorem C3_empty_vs_missing_field_witness :
    getMatchingKeywords "vpn" "t0" .null =
      .error (.noData ("No matching keywords found for: " ++ "vpn")) ∧
    getMatchingKeywords "vpn" "t0" (.obj [("other", .num 1)]) =
      .ok ⟨"vpn", "t0", "matching_keywords", .obj [("other", .num 1)], 0⟩ ∧
    getQuestions "vpn" "t0" (.obj [("other", .num 1)]) =
      .ok ⟨"vpn", "t0", "questions", .obj [("other", .num 1)], 0⟩ :=
  ⟨((C3_empty_vs_missing_field "vpn" "t0" .null).1 rfl).1,
   (C3_empty_vs_missing_field "vpn" "t0" (.obj [("other", .num 1)])).2.1
     [("other", .num 1)] rfl (by simp) rfl,
   (C3_empty_vs_missing_field "vpn" "t0" (.obj [("other", .num 1)])).2.2
     [("other", .num 1)] rfl (by simp) rfl⟩

/-- Claim C4: for every truthy related-keywords body, the list is
extracted by trying the `keywords` field, then `related_keywords`, then
the nested `search_stats.related` path, first present field winning; if
none is present the extracted list is empty with count 0 and the call
still succeeds; in every case the count equals the length of the
extracted list. -/
theorem C4_related_priority_order (kw ts : String) (kvs : List (String × Json)) (hne : kvs ≠ []) :
    (∀ l, assocGet kvs "keywords" = some (.arr l) →
       getRelatedKeywords kw ts (.obj kvs) =
         .ok ⟨kw, ts, "related_keywords", .arr l, l.length, .obj kvs⟩) ∧
    (∀ l, assocGet kvs "keywords" = none →
       assocGet kvs "related_keywords" = some (.arr l) →
       getRelatedKeywords kw ts (.obj kvs) =
         .ok ⟨kw, ts, "related_keywords", .arr l, l.length, .obj kvs⟩) ∧
    (∀ sskvs l, assocGet kvs "keywords" = none →
       assocGet kvs "related_keywords" = none →
       assocGet kvs "search_stats" = some (.obj sskvs) →
       assocGet sskvs "related" = some (.arr l) →
       getRelatedKeywords kw ts (.obj kvs) =
         .ok ⟨kw, ts, "related_keywords", .arr l, l.length, .obj kvs⟩) ∧
    (assocGet kvs "keywords" = none →
       assocGet kvs "related_keywords" = none →
       assocGet kvs "search_stats" = none →
       getRelatedKeywords kw ts (.obj kvs) =
         .ok ⟨kw, ts, "related_keywords", .arr [], 0, .obj kvs⟩) ∧
    (∀ sskvs, assocGet kvs "keywords" = none →
       assocGet kvs "related_keywords" = none →
       assocGet kvs "search_stats" = some (.obj sskvs) →
       assocGet sskvs "related" = none →
       getRelatedKeywords kw ts (.obj kvs) =
         .ok ⟨kw, ts, "related_keywords", .arr [], 0, .obj kvs⟩) := by
  have he : kvs.isEmpty = false := isEmpty_false_of_ne_nil kvs hne
  refine ⟨?_, ?_, ?_, ?_, ?_⟩
  · intro l h1
    simp [getRelatedKeywords, Json.falsy, he, extractRelated, pyMember,
      any_key_eq_isSome_assocGet, h1, pySubscript, pyLen]
  · intro l h1 h2
    simp [getRelatedKeywords, Json.falsy, he, extractRelated, pyMember,
      any_key_eq_isSome_assocGet, h1, h2, pySubscript, pyLen]
  · intro sskvs l h1 h2 h3 h4
    simp [getRelatedKeywords, Json.falsy, he, extractRelated, pyMember,
      any_key_eq_isSome_assocGet, h1, h2, h3, h4, pySubscript, pyLen]
  · intro h1 h2 h3
    simp [getRelatedKeywords, Json.falsy, he, extractRelated, pyMember,
      any_key_eq_isSome_assocGet, h1, h2, h3, pySubscript, pyLen]
  · intro sskvs h1 h2 h3 h4
    simp [getRelatedKeywords, Json.falsy, he, extractRelated, pyMember,
      any_key_eq_isSome_assocGet, h1, h2, h3, h4, pySubscript, pyLen]

/-- Concrete instance of Claim C4: a body with both `related_keywords`
and a `keywords` field uses `keywords`; a body with neither of the three
fields yields the empty list with count 0. -/
theorem C4_related_priority_order_witness :
    getRelatedKeywords "vpn" "t0"
        (.obj [("related_keywords", .arr [.str "b"]), ("keywords", .arr [.str "a", .str "c"])]) =
      .ok ⟨"vpn", "t0", "related_keywords", .arr [.str "a", .str "c"], 2,
           .obj [("related_keywords", .arr [.str "b"]), ("keywords", .arr [.str "a", .str "c"])]⟩ ∧
    getRelatedKeywords "vpn" "t0" (.obj [("other", .num 1)]) =
      .ok ⟨"vpn", "t0", "related_keywords", .arr [], 0, .obj [("other", .num 1)]⟩ :=
  ⟨(C4_related_priority_order "vpn" "t0"
      [("related_keywords", .arr [.str "b"]), ("keywords", .arr [.str "a", .str "c"])]
      (by simp)).1 [.str "a", .str "c"] rfl,
   (C4_related_priority_order "vpn" "t0" [("other", .num 1)] (by simp)).2.2.2.1 rfl rfl rfl⟩

theorem lookupResult_append_right {β : Type} (d e : List (String × β)) (k : String)
    (h : lookupResult d k = none) : lookupResult (d ++ e) k = lookupResult e k := by
  induction d with
  | nil => rfl
  | cons p rest ih =>
    obtain ⟨k1, v1⟩ := p
    by_cases hq : k1 = k
    · simp [lookupResult, hq] at h
    · simp only [lookupResult, if_neg hq] at h
      simp only [List.cons_append, lookupResult, if_neg hq]
      exact ih h

theorem lookupResult_append_left {β : Type} (d e : List (String × β)) (k : String) (v : β)
    (h : lookupResult d k = some v) : lookupResult (d ++ e) k = some v := by
  induction d with
  | nil => simp [lookupResult] at h
  | cons p rest ih =>
    obtain ⟨k1, v1⟩ := p
    by_cases hq : k1 = k
    · simp only [lookupResult, if_pos hq] at h
      simp only [List.cons_append, lookupResult, if_pos hq]
      exact h
    · simp only [lookupResult, if_neg hq] at h
      simp only [List.cons_append, lookupResult, if_neg hq]
      exact ih h

theorem lookupResult_none_of_not_any {β : Type} (d : List (String × β)) (k : String)
    (h : (d.any fun p => p.1 = k) = false) : lookupResult d k = none := by
  induction d with
  | nil => rfl
  | cons p rest ih =>
    obtain ⟨k1, v1⟩ := p
    simp only [List.any_cons, Bool.or_eq_false_iff, decide_eq_false_iff_not] at h
    simp only [lookupResult, if_neg h.1]
    exact ih (by simpa using h.2)

theorem lookupResult_mapOverwrite_self {β : Type} (d : List (String × β)) (k : String) (v : β)
    (h : (d.any fun p => p.1 = k) = true) :
    lookupResult (d.map (fun p => if p.1 = k then (k, v) else p)) k = some v := by
  induction d with
  | nil => simp at h
  | cons p rest ih =>
    obtain ⟨k1, v1⟩ := p
    simp only [List.map_cons]
    by_cases hk : k1 = k
    · rw [if_pos hk]
      simp [lookupResult]
    · rw [if_neg hk]
      simp only [lookupResult, if_neg hk]
      refine ih ?_
      simp only [List.any_cons, Bool.or_eq_true, decide_eq_true_eq] at h
      rcases h with h | h
      · exact absurd h hk
      · exact h

theorem lookupResult_mapOverwrite_other {β : Type} (d : List (String × β)) (k k2 : String)
    (v : β) (hk : k2 ≠ k) :
    lookupResult (d.map (fun p => if p.1 = k then (k, v) else p)) k2 = lookupResult d k2 := by
  induction d with
  | nil => rfl
  | cons p rest ih =>
    obtain ⟨k1, v1⟩ := p
    simp only [List.map_cons]
    by_cases hk1 : k1 = k
    · rw [if_pos hk1]
      simp only [lookupResult]
      rw [if_neg (fun hc : k = k2 => hk hc.symm), if_neg (fun hc : k1 = k2 => hk (hc.symm.trans hk1))]
      exact ih
    · rw [if_neg hk1]
      by_cases hq : k1 = k2
      · simp only [lookupResult, if_pos hq]
      · simp only [lookupResult, if_neg hq]
        exact ih

theorem lookupResult_dictInsert_self {β : Type} (d : List (String × β)) (k : String) (v : β) :
    lookupResult (dictInsert d k v) k = some v := by
  unfold dictInsert
  by_cases h : (d.any fun p => p.1 = k) = true
  · rw [if_pos h]
    exact lookupResult_mapOverwrite_self d k v h
  · rw [if_neg h]
    have hfalse : (d.any fun p => p.1 = k) = false := by
      cases hany : (d.any fun p => p.1 = k) with
      | false => rfl
      | true => exact absurd hany h
    rw [lookupResult_append_right d [(k, v)] k (lookupResult_none_of_not_any d k hfalse)]
    simp [lookupResult]

theorem lookupResult_dictInsert_other {β : Type} (d : List (String × β)) (k k2 : String)
    (v : β) (hk : k2 ≠ k) : lookupResult (dictInsert d k v) k2 = lookupResult d k2 := by
  unfold dictInsert
  by_cases h : (d.any fun p => p.1 = k) = true
  · rw [if_pos h]
    exact lookupResult_mapOverwrite_other d k k2 v hk
  · rw [if_neg h]
    cases hd : lookupResult d k2 with
    | none =>
      rw [lookupResult_append_right d [(k, v)] k2 hd]
      simp only [lookupResult]
      rw [if_neg (fun hc : k = k2 => hk hc.symm)]
    | some w => exact lookupResult_append_left d [(k, v)] k2 w hd

theorem keys_mapOverwrite {β : Type} (d : List (String × β)) (k : String) (v : β) :
    (d.map (fun p => if p.1 = k then (k, v) else p)).map Prod.fst = d.map Prod.fst := by
  rw [List.map_map]
  apply List.map_congr_left
  intro p _
  by_cases hp : p.1 = k
  · simp [Function.comp, hp]
  · simp [Function.comp, hp]

theorem keys_dictInsert {β : Type} (d : List (String × β)) (k : String) (v : β) (k2 : String) :
    (k2 ∈ (dictInsert d k v).map Prod.fst) ↔ (k2 = k ∨ k2 ∈ d.map Prod.fst) := by
  unfold dictInsert
  by_cases h : (d.any fun p => p.1 = k) = true
  · rw [if_pos h, keys_mapOverwrite]
    constructor
    · intro hm
      exact Or.inr hm
    · rintro (rfl | hm)
      · obtain ⟨p, hp, hpk⟩ := List.any_eq_true.mp h
        simp only [decide_eq_true_eq] at hpk
        exact List.mem_map.mpr ⟨p, hp, hpk⟩
      · exact hm
  · rw [if_neg h, List.map_append]
    simp only [List.map_cons, List.map_nil, List.mem_append, List.mem_singleton]
    tauto

theorem nodup_keys_dictInsert {β : Type} (d : List (String × β)) (k : String) (v : β)
    (hnd : (d.map Prod.fst).Nodup) : ((dictInsert d k v).map Prod.fst).Nodup := by
  unfold dictInsert
  by_cases h : (d.any fun p => p.1 = k) = true
  · rw [if_pos h, keys_mapOverwrite]
    exact hnd
  · rw [if_neg h, List.map_append]
    simp only [List.map_cons, List.map_nil]
    rw [List.nodup_append]
    refine ⟨hnd, List.nodup_singleton k, ?_⟩
    intro a ha hb
    simp only [List.mem_singleton] at hb
    subst hb
    obtain ⟨p, hp, hpk⟩ := List.mem_map.mp ha
    have hany : (d.any fun p => p.1 = a) = true := List.any_eq_true.mpr ⟨p, hp, by simp [hpk]⟩
    exact h hany

theorem analyzeMultipleGo_spec {α : Type} (analyze : String → Except String α)
    (keywords : List String) (acc : List (String × Except String α))
    (hnd : (acc.map Prod.fst).Nodup) :
    ((analyzeMultipleGo analyze acc keywords).map Prod.fst).Nodup ∧
    (∀ k, k ∈ (analyzeMultipleGo analyze acc keywords).map Prod.fst ↔
       k ∈ acc.map Prod.fst ∨ k ∈ keywords) ∧
    (∀ k, k ∈ keywords →
       lookupResult (analyzeMultipleGo analyze acc keywords) k = some (analyze k)) ∧
    (∀ k, k ∉ keywords →
       lookupResult (analyzeMultipleGo analyze acc keywords) k = lookupResult acc k) := by
  induction keywords generalizing acc with
  | nil =>
    refine ⟨hnd, ?_, ?_, ?_⟩
    · intro k; simp [analyzeMultipleGo]
    · intro k hk; simp at hk
    · intro k _; rfl
  | cons kw rest ih =>
    have hnd2 : ((dictInsert acc kw (analyze kw)).map Prod.fst).Nodup :=
      nodup_keys_dictInsert acc kw (analyze kw) hnd
    obtain ⟨ih1, ih2, ih3, ih4⟩ := ih (dictInsert acc kw (analyze kw)) hnd2
    refine ⟨ih1, ?_, ?_, ?_⟩
    · intro k
      rw [show analyzeMultipleGo analyze acc (kw :: rest) =
            analyzeMultipleGo analyze (dictInsert acc kw (analyze kw)) rest from rfl]
      rw [ih2 k, keys_dictInsert]
      simp only [List.mem_cons]
      tauto
    · intro k hk
      rw [show analyzeMultipleGo analyze acc (kw :: rest) =
            analyzeMultipleGo analyze (dictInsert acc kw (analyze kw)) rest from rfl]
      rcases List.mem_cons.mp hk with rfl | hkr
      · by_cases hkin : k ∈ rest
        · exact ih3 k hkin
        · rw [ih4 k hkin]
          exact lookupResult_dictInsert_self acc k (analyze k)
      · exact ih3 k hkr
    · intro k hk
      rw [show analyzeMultipleGo analyze acc (kw :: rest) =
            analyzeMultipleGo analyze (dictInsert acc kw (analyze kw)) rest from rfl]
      have hkw : k ≠ kw := fun hc => hk (hc ▸ List.mem_cons_self kw rest)
      have hkr : k ∉ rest := fun hc => hk (List.mem_cons_of_mem kw hc)
      rw [ih4 k hkr]
      exact lookupResult_dictInsert_other acc kw k (analyze kw) hkw

/-- Claim C5: for every per-keyword analysis outcome function and every
input list, the batch result has exactly one entry per distinct input
keyword; a keyword whose analysis succeeds maps to the analysis result,
a keyword whose analysis fails maps to the error descriptor carrying the
failure message; and a failure on one keyword never prevents the others
from being attempted (every input keyword gets its own entry regardless
of the other outcomes). -/
theorem C5_batch_isolation {α : Type} (analyze : String → Except String α)
    (keywords : List String) :
    ((analyzeMultiple analyze keywords).map Prod.fst).Nodup ∧
    (∀ k, k ∈ (analyzeMultiple analyze keywords).map Prod.fst ↔ k ∈ keywords) ∧
    (∀ k, k ∈ keywords →
       lookupResult (analyzeMultiple analyze keywords) k = some (analyze k)) := by
  obtain ⟨h1, h2, h3, _⟩ := analyzeMultipleGo_spec analyze keywords [] (by simp)
  refine ⟨h1, ?_, h3⟩
  intro k
  rw [analyzeMultiple, h2 k]
  simp

/-- Concrete instance of Claim C5: with "k1" succeeding and "k2" failing,
the batch over ["k1", "k2"] holds the success entry for "k1" and the
error descriptor for "k2". -/
theorem C5_batch_isolation_witness :
    lookupResult (analyzeMultiple
        (fun k => if k = "k1" then .ok (1 : Nat) else .error "No analysis data found")
        ["k1", "k2"]) "k1" = some (.ok 1) ∧
    lookupResult (analyzeMultiple
        (fun k => if k = "k1" then .ok (1 : Nat) else .error "No analysis data found")
        ["k1", "k2"]) "k2" = some (.error "No analysis data found") := by
  have h := C5_batch_isolation
    (fun k => if k = "k1" then .ok (1 : Nat) else .error "No analysis data found") ["k1", "k2"]
  constructor
  · have := h.2.2 "k1" (by simp)
    simpa using this
  · have := h.2.2 "k2" (by simp)
    simpa using this

/-- Claim C6: the combined export writes exactly one header row with the
seven fixed columns followed by one record per extracted item, all
related rows first, then all matching rows, then all question rows; it
fails with the export error when the combined row set is empty. -/
theorem C6_export_combined (rel : RelatedResult) (mat q : AuxResult)
    (rs ms qs : List Json) (mkvs qkvs : List (String × Json))
    (hrel : rel.data = .arr rs)
    (hmat : mat.data = .obj mkvs) (hperm : assocGet mkvs "permutations" = some (.arr ms))
    (hq : q.data = .obj qkvs) (hques : assocGet qkvs "questions" = some (.arr qs)) :
    csvHeaders = ["keyword", "type", "score", "volume", "competition", "source_keyword",
      "timestamp"] ∧
    (rs = [] → ms = [] → qs = [] →
       exportCombined rel mat q = .error (.exportError "No data to export")) ∧
    (rs ≠ [] ∨ ms ≠ [] ∨ qs ≠ [] →
       exportCombined rel mat q =
         .ok (csvHeaders ::
           (rs.map (fun item => rowCells (itemToRow "related" rel.keyword rel.timestamp item)) ++
            ms.map (fun item => rowCells (itemToRow "matching" mat.keyword mat.timestamp item)) ++
            qs.map (fun item => rowCells (itemToRow "question" q.keyword q.timestamp item))))) ∧
    (∀ file, exportCombined rel mat q = .ok file →
       file.length = 1 + (rs.length + ms.length + qs.length)) := by
  have hr1 : addRelatedRows rel =
      .ok (rs.map (itemToRow "related" rel.keyword rel.timestamp)) := by
    simp [addRelatedRows, hrel, jsonIter]
  have hr2 : addMatchingRows mat =
      .ok (ms.map (itemToRow "matching" mat.keyword mat.timestamp)) := by
    simp [addMatchingRows, hmat, pyGetD, hperm, jsonIter]
  have hr3 : addQuestionRows q =
      .ok (qs.map (itemToRow "question" q.keyword q.timestamp)) := by
    simp [addQuestionRows, hq, pyGetD, hques, jsonIter]
  have hexp : exportCombined rel mat q =
      writeCsvFile (rs.map (itemToRow "related" rel.keyword rel.timestamp) ++
        ms.map (itemToRow "matching" mat.keyword mat.timestamp) ++
        qs.map (itemToRow "question" q.keyword q.timestamp)) := by
    rw [exportCombined, hr1, hr2, hr3]
  refine ⟨rfl, ?_, ?_, ?_⟩
  · rintro rfl rfl rfl
    rw [hexp]
    rfl
  · intro hne
    have hnil : (rs.map (itemToRow "related" rel.keyword rel.timestamp) ++
        ms.map (itemToRow "matching" mat.keyword mat.timestamp) ++
        qs.map (itemToRow "question" q.keyword q.timestamp)) ≠ [] := by
      intro hnil
      rw [List.append_eq_nil, List.append_eq_nil] at hnil
      rcases hne with h | h | h
      · exact h (List.map_eq_nil_iff.mp hnil.1.1)
      · exact h (List.map_eq_nil_iff.mp hnil.1.2)
      · exact h (List.map_eq_nil_iff.mp hnil.2)
    have hfalse := isEmpty_false_of_ne_nil _ hnil
    rw [hexp, writeCsvFile, hfalse]
    simp only [Bool.false_eq_true, if_false, List.map_append, List.map_map]
    rfl
  · intro file hfile
    rw [hexp, writeCsvFile] at hfile
    by_cases hemp : ((rs.map (itemToRow "related" rel.keyword rel.timestamp) ++
        ms.map (itemToRow "matching" mat.keyword mat.timestamp) ++
        qs.map (itemToRow "question" q.keyword q.timestamp)).isEmpty) = true
    · rw [if_pos hemp] at hfile
      cases hfile
    · rw [if_neg hemp] at hfile
      injection hfile with hfile
      subst hfile
      simp [List.length_append]
      omega

/-- Concrete instance of Claim C6: 2 related items, 3 matching items and
1 question yield the header row plus exactly 6 data rows, grouped
related, then matching, then question. -/
theorem C6_export_combined_witness :
    exportCombined
      ⟨"vpn", "t0", "related_keywords", .arr [.str "a", .str "b"], 2, .obj []⟩
      ⟨"vpn", "t0", "matching_keywords",
        .obj [("permutations", .arr [.str "m1", .str "m2", .str "m3"])], 3⟩
      ⟨"vpn", "t0", "questions", .obj [("questions", .arr [.str "q1"])], 1⟩ =
      .ok [csvHeaders,
        ["a", "related", "N/A", "N/A", "N/A", "vpn", "t0"],
        ["b", "related", "N/A", "N/A", "N/A", "vpn", "t0"],
        ["m1", "matching", "N/A", "N/A", "N/A", "vpn", "t0"],
        ["m2", "matching", "N/A", "N/A", "N/A", "vpn", "t0"],
        ["m3", "matching", "N/A", "N/A", "N/A", "vpn", "t0"],
        ["q1", "question", "N/A", "N/A", "N/A", "vpn", "t0"]] := by
  have h := (C6_export_combined
    ⟨"vpn", "t0", "related_keywords", .arr [.str "a", .str "b"], 2, .obj []⟩
    ⟨"vpn", "t0", "matching_keywords",
      .obj [("permutations", .arr [.str "m1", .str "m2", .str "m3"])], 3⟩
    ⟨"vpn", "t0", "questions", .obj [("questions", .arr [.str "q1"])], 1⟩
    [.str "a", .str "b"] [.str "m1", .str "m2", .str "m3"] [.str "q1"]
    [("permutations", .arr [.str "m1", .str "m2", .str "m3"])]
    [("questions", .arr [.str "q1"])]
    rfl rfl rfl rfl rfl).2.2.1 (Or.inl (by simp))
  rw [h]
  rfl

/-- Claim C7 (code bug): the constructor exported by the package
(`vidiq_api.py` lines 25-41) — the one its own test
`test_init_empty_token` expects to raise on an empty token — accepts the
empty token without any check; `client.py`'s constructor (lines 21-43)
behaves as the claim states: absent or empty tokens (explicit and from
the environment) fail fast with the invalid-argument error, non-empty
tokens succeed. -/
theorem C7_empty_token_construction :
    vidiqInit "" = .ok "" ∧
    clientInit none none = .error (.invalidArgument "No auth token provided.") ∧
    clientInit (some "") none = .error (.invalidArgument "No auth token provided.") ∧
    clientInit (some "") (some "") = .error (.invalidArgument "No auth token provided.") ∧
    clientInit none (some "") = .error (.invalidArgument "No auth token provided.") ∧
    clientInit (some "tok") none = .ok "tok" ∧
    clientInit none (some "tok") = .ok "tok" :=
  ⟨rfl, rfl, rfl, rfl, rfl, rfl, rfl⟩

end Vidiq
